import Mathlib

/-!
Shallow embedding of the esp-idf-hal fork's SAI/I2S driver (src/sai.rs) and
general-purpose timer driver (src/timer.rs).

Modelling conventions:
* FFI primitives (`i2s_driver_install`, `i2s_set_pin`, `i2s_write`,
  `timer_set_counter_value`, ...) are external collaborators: each invocation
  is recorded in a call trace, and its `esp_err_t` result code is passed in as
  a parameter of the embedded function.
* `esp_err_t` codes are `Int`; `0` is `ESP_OK`, anything else an error.  The
  `esp!` macro becomes `espToResult`, which maps a nonzero code to `.error`
  with the code unchanged.
* Rust panics (`unreachable!`, `panic!`, the timer driver's `check`) are
  modelled as the `.error` side of an outer `Except` whose error type names
  the panic site; the `.ok` side carries the call trace and the `Result`
  value the Rust function returns.
* The ISR-context probe `crate::interrupt::active()` becomes an explicit
  `isrActive : Bool` parameter.
-/

/-- esp_err_t result code; 0 is ESP_OK. -/
abbrev EspErr := Int

/-- The esp! macro: a zero code is Ok(()), a nonzero code is Err with the code
surfaced unchanged. -/
def espToResult (code : EspErr) : Except EspErr Unit :=
  if code = 0 then .ok () else .error code

namespace Sai

namespace config

/-- config::Mode::Master discriminant (0x1 << 0). -/
def Mode.Master : Nat := 1

/-- config::Mode::Slave discriminant (0x1 << 1). -/
def Mode.Slave : Nat := 2

/-- config::Mode::Tx discriminant (0x1 << 2). -/
def Mode.Tx : Nat := 4

/-- config::Mode::Rx discriminant (0x1 << 3). -/
def Mode.Rx : Nat := 8

/-- config::Mode::Pdm discriminant (0x1 << 6). -/
def Mode.Pdm : Nat := 64

/-- config::BitsPerSample. -/
inductive BitsPerSample
  | Bits8
  | Bits16
  | Bits24
  | Bits32
deriving DecidableEq

/-- The repr(u8) discriminants of BitsPerSample. -/
def BitsPerSample.val : BitsPerSample → Nat
  | .Bits8 => 8
  | .Bits16 => 16
  | .Bits24 => 24
  | .Bits32 => 32

/-- From<usize> for BitsPerSample (sai.rs lines 55-65).  The `_` arm is
`unreachable!`, modelled as `none`. -/
def bitsPerSampleFrom : Nat → Option BitsPerSample
  | 1 => some .Bits8
  | 2 => some .Bits16
  | 3 => some .Bits24
  | 4 => some .Bits32
  | _ => none

/-- config::ChannelFormat::RightLeft discriminant. -/
def ChannelFormat.RightLeft : Nat := 0

/-- config::CommFormat. -/
inductive CommFormat
  | I2s
  | Msb
  | PcmShort
  | PcmLong
deriving DecidableEq

/-- The repr(u8) discriminants of CommFormat. -/
def CommFormat.val : CommFormat → Nat
  | .I2s => 1
  | .Msb => 2
  | .PcmShort => 4
  | .PcmLong => 12

end config

/-- The mode-tag marker types from embedded-hal used as the M parameter of the
driver (`I2sMode`, `I2sLeftMode`, `TdmMode`). -/
inductive ModeTag
  | I2sMode
  | I2sLeftMode
  | TdmMode
deriving DecidableEq

/-- The I2sCommFormat impls produced by `impl_I2S!` for both I2S0 and I2S1
(sai.rs lines 821-830): the same mode-to-format table for each port. -/
def get_comm_format : ModeTag → config.CommFormat
  | .I2sMode => .I2s
  | .I2sLeftMode => .Msb
  | .TdmMode => .PcmShort

/-- ESP_INTR_FLAG_LEVEL1 = (1 << 1). -/
def ESP_INTR_FLAG_LEVEL1 : Nat := 2

/-- i2s_pin_config_t; pin numbers are gpio_num_t (`Int` here), -1 marks an
unused pin. -/
structure I2sPinConfig where
  bck_io_num : Int
  ws_io_num : Int
  data_in_num : Int
  data_out_num : Int
  mck_io_num : Int
deriving DecidableEq

/-- i2s_driver_config_t, restricted to the fields the source sets. -/
structure I2sDriverConfig where
  mode : Nat
  sample_rate : Nat
  bits_per_sample : Nat
  channel_format : Nat
  communication_format : Nat
  intr_alloc_flags : Nat
  dma_buf_count : Nat
  dma_buf_len : Nat
  use_apll : Bool
deriving DecidableEq

/-- One invocation of an underlying i2s engine primitive, with the arguments
the source passes. -/
inductive EngineCall
  | driverInstall (port : Nat) (cfg : I2sDriverConfig)
  | setPin (port : Nat) (pins : I2sPinConfig)
  | driverUninstall (port : Nat)
  | i2sWrite (port : Nat) (size : Nat) (ticksToWait : Nat)
deriving DecidableEq

/-- The two panic sites of I2sConfigure::configure: the `unreachable!` in the
direction match (sai.rs line 121) and the `unreachable!` in
From<usize> for BitsPerSample (sai.rs line 62). -/
inductive SaiPanic
  | unreachableDirection
  | unreachableBits
deriving DecidableEq

/-- The `tranceiver_mode` match of I2sConfigure::configure (sai.rs lines
117-122); the (None, None) arm is `unreachable!`. -/
def tranceiverMode (data_in data_out : Option Int) : Option Nat :=
  match data_in, data_out with
  | some _, some _ => some (config.Mode.Rx ||| config.Mode.Tx)
  | some _, none => some config.Mode.Rx
  | none, some _ => some config.Mode.Tx
  | none, none => none

/-- I2sConfigure::configure (sai.rs lines 109-151), for sample width W of
`sizeW` bytes on port `port` with mode tag `tag`.  `installCode` and
`setPinCode` are the esp_err_t results of `i2s_driver_install` and
`i2s_set_pin`.  Returns the trace of engine calls actually made together with
the function's `Result`, or a `SaiPanic` if a panic is reached first. -/
def configure (port sizeW : Nat) (tag : ModeTag) (bck ws : Int)
    (data_in data_out mck : Option Int) (sample_rate : Nat)
    (installCode setPinCode : EspErr) :
    Except SaiPanic (List EngineCall × Except EspErr Unit) :=
  match tranceiverMode data_in data_out with
  | none => .error .unreachableDirection
  | some tm =>
    let pin_config : I2sPinConfig :=
      { bck_io_num := bck
        ws_io_num := ws
        data_in_num := data_in.getD (-1)
        data_out_num := data_out.getD (-1)
        mck_io_num := mck.getD (-1) }
    match config.bitsPerSampleFrom sizeW with
    | none => .error .unreachableBits
    | some bps =>
      let i2s_config : I2sDriverConfig :=
        { mode := config.Mode.Master ||| tm
          sample_rate := sample_rate
          bits_per_sample := bps.val
          channel_format := config.ChannelFormat.RightLeft
          communication_format := (get_comm_format tag).val
          intr_alloc_flags := ESP_INTR_FLAG_LEVEL1
          dma_buf_count := 8
          dma_buf_len := 64
          use_apll := false }
      if installCode = 0 then
        .ok ([.driverInstall port i2s_config, .setPin port pin_config],
          espToResult setPinCode)
      else
        .ok ([.driverInstall port i2s_config], .error installCode)

/-- I2sRx::new_rx for I2sDriver (sai.rs lines 269-311): configures with
data_in = Some, data_out = None. -/
def new_rx (port sizeW : Nat) (tag : ModeTag) (bck ws data_in : Int)
    (mck : Option Int) (sample_rate : Nat) (installCode setPinCode : EspErr) :
    Except SaiPanic (List EngineCall × Except EspErr Unit) :=
  configure port sizeW tag bck ws (some data_in) none mck sample_rate
    installCode setPinCode

/-- I2sTx::new_tx for I2sDriver (sai.rs lines 324-368): configures with
data_in = None, data_out = Some. -/
def new_tx (port sizeW : Nat) (tag : ModeTag) (bck ws data_out : Int)
    (mck : Option Int) (sample_rate : Nat) (installCode setPinCode : EspErr) :
    Except SaiPanic (List EngineCall × Except EspErr Unit) :=
  configure port sizeW tag bck ws none (some data_out) mck sample_rate
    installCode setPinCode

/-- I2sRxTx::new for I2sDriver (sai.rs lines 382-427): configures with both
data pins supplied. -/
def new (port sizeW : Nat) (tag : ModeTag) (bck ws data_in data_out : Int)
    (mck : Option Int) (sample_rate : Nat) (installCode setPinCode : EspErr) :
    Except SaiPanic (List EngineCall × Except EspErr Unit) :=
  configure port sizeW tag bck ws (some data_in) (some data_out) mck
    sample_rate installCode setPinCode

/-- The i2s_driver_config_t passed to i2s_driver_install by a configure run,
if that call was reached. -/
def installedConfig :
    Except SaiPanic (List EngineCall × Except EspErr Unit) →
    Option I2sDriverConfig
  | .error _ => none
  | .ok (calls, _) =>
    calls.findSome? fun c =>
      match c with
      | .driverInstall _ cfg => some cfg
      | _ => none

/-- The engine-call trace of a configure run (empty if a panic was reached). -/
def callTrace :
    Except SaiPanic (List EngineCall × Except EspErr Unit) → List EngineCall
  | .error _ => []
  | .ok (calls, _) => calls

/-- The `Result` value a configure run returns (none if a panic was
reached). -/
def configResult :
    Except SaiPanic (List EngineCall × Except EspErr Unit) →
    Option (Except EspErr Unit)
  | .error _ => none
  | .ok (_, r) => some r

/-- True exactly when a configure/constructor run ended at the
`unreachable!` of the direction match. -/
def hitsDirectionPanic :
    Except SaiPanic (List EngineCall × Except EspErr Unit) → Bool
  | .error .unreachableDirection => true
  | _ => false

/-- I2sRx::read for I2sDriver (sai.rs lines 313-315).  The body is literally
`Ok(())`: no engine primitive is invoked and the caller's buffer (modelled as
a list of samples, returned alongside) is left untouched. -/
def I2sRx_read (port : Nat) (samples : List Int) :
    List EngineCall × List Int × Except EspErr Unit :=
  ([], samples, .ok ())

/-- I2sTx::write for I2sDriver (sai.rs lines 370-373): one call
`i2s_write(port, samples.as_ptr(), samples.len() as u32, &mut _bytes_written,
100)`, its esp_err_t result surfaced through esp!.  Note the size argument is
the element count `samplesLen`, not a byte count. -/
def I2sTx_write (port samplesLen : Nat) (writeCode : EspErr) :
    List EngineCall × Except EspErr Unit :=
  ([.i2sWrite port samplesLen 100], espToResult writeCode)

/-- Modelled from the spec: the byte size of the sample slice,
`samples.len() * size_of::<W>()` — what the claim says write submits to the
blocking-write primitive. -/
def writeSizeSpec (sizeW samplesLen : Nat) : Nat := samplesLen * sizeW

end Sai

namespace Timer

/-- timer_group_t_TIMER_GROUP_0. -/
def TIMER_GROUP_0 : Nat := 0

/-- timer_group_t_TIMER_GROUP_1. -/
def TIMER_GROUP_1 : Nat := 1

/-- timer_group_t_TIMER_GROUP_MAX. -/
def TIMER_GROUP_MAX : Nat := 2

/-- timer_idx_t_TIMER_0. -/
def TIMER_0 : Nat := 0

/-- timer_idx_t_TIMER_1. -/
def TIMER_1 : Nat := 1

/-- The fixed hardware address a Timer marker type exposes: its
(group(), index()) pair. -/
structure TimerId where
  group : Nat
  index : Nat
deriving DecidableEq

/-- impl_timer!(TIMER00: TIMER_GROUP_0, TIMER_0) — timer.rs line 336. -/
def TIMER00 : TimerId := ⟨TIMER_GROUP_0, TIMER_0⟩

/-- impl_timer!(TIMER01: TIMER_GROUP_0, TIMER_1) — timer.rs line 338. -/
def TIMER01 : TimerId := ⟨TIMER_GROUP_0, TIMER_1⟩

/-- impl_timer!(TIMER10: TIMER_GROUP_1, TIMER_0) — timer.rs line 339. -/
def TIMER10 : TimerId := ⟨TIMER_GROUP_1, TIMER_0⟩

/-- impl_timer!(TIMER11: TIMER_GROUP_1, TIMER_0) — timer.rs line 341, exactly
as written in the source (index TIMER_0, not TIMER_1). -/
def TIMER11 : TimerId := ⟨TIMER_GROUP_1, TIMER_0⟩

/-- The two panic sites of TimerDriver: `check` ("This function cannot be
called from an ISR", timer.rs line 258) and the enable_alarm ISR-disable arm
("Disabling alarm from an ISR is not supported", timer.rs line 143). -/
inductive TimerPanic
  | isrForbidden
  | alarmDisableInIsr
deriving DecidableEq

/-- One invocation of an underlying timer primitive, with the arguments the
source passes. -/
inductive TimerCall
  | getCounterInIsr (g i : Nat)
  | getCounter (g i : Nat)
  | setCounterValue (g i v : Nat)
  | setAlarmInIsr (g i v : Nat)
  | setAlarmValue (g i v : Nat)
  | enableAlarmInIsr (g i : Nat)
  | setAlarm (g i : Nat) (en : Bool)
  | enableIntr (g i : Nat)
  | disableIntr (g i : Nat)
  | isrCallbackAdd (g i : Nat)
  | isrCallbackRemove (g i : Nat)
deriving DecidableEq

/-- The normal-context read with its out-parameter: Ok(value) on code 0, the
error code unchanged otherwise. -/
def espToValueResult (code : EspErr) (v : Nat) : Except EspErr Nat :=
  if code = 0 then .ok v else .error code

/-- TimerDriver::counter (timer.rs lines 112-126): in interrupt context it
returns timer_group_get_counter_value_in_isr's value directly; in normal
context it calls timer_get_counter_value and propagates its result. -/
def counter (g i : Nat) (isrActive : Bool) (isrValue : Nat) (getCode : EspErr)
    (getValue : Nat) : List TimerCall × Except EspErr Nat :=
  if isrActive then ([.getCounterInIsr g i], .ok isrValue)
  else ([.getCounter g i], espToValueResult getCode getValue)

/-- TimerDriver::set_counter (timer.rs lines 128-134): `self.check()` —
which panics in interrupt context — then timer_set_counter_value. -/
def set_counter (g i : Nat) (isrActive : Bool) (value : Nat)
    (setCode : EspErr) :
    Except TimerPanic (List TimerCall × Except EspErr Unit) :=
  if isrActive then .error .isrForbidden
  else .ok ([.setCounterValue g i value], espToResult setCode)

/-- TimerDriver::set_alarm (timer.rs lines 172-182): in interrupt context
timer_group_set_alarm_value_in_isr (infallible), otherwise
timer_set_alarm_value with its result propagated. -/
def set_alarm (g i : Nat) (isrActive : Bool) (value : Nat)
    (setCode : EspErr) :
    Except TimerPanic (List TimerCall × Except EspErr Unit) :=
  if isrActive then .ok ([.setAlarmInIsr g i value], .ok ())
  else .ok ([.setAlarmValue g i value], espToResult setCode)

/-- TimerDriver::enable_alarm (timer.rs lines 136-160): in interrupt context,
enabling calls timer_group_enable_alarm_in_isr and disabling panics; in
normal context timer_set_alarm is called with TIMER_ALARM_EN/DIS and its
result propagated. -/
def enable_alarm (g i : Nat) (isrActive enable : Bool) (setCode : EspErr) :
    Except TimerPanic (List TimerCall × Except EspErr Unit) :=
  if isrActive then
    if enable then .ok ([.enableAlarmInIsr g i], .ok ())
    else .error .alarmDisableInIsr
  else .ok ([.setAlarm g i enable], espToResult setCode)

/-- The ISR_HANDLERS table (timer.rs line 334): one slot per timer, holding
either no handler or one registered handler (handlers are identified by a
Nat tag; the heap box and raw context pointer are not modelled). -/
abbrev Registry := List (Option Nat)

/-- The slot index used by subscribe/unsubscribe:
group * TIMER_GROUP_MAX + index. -/
def slotIndex (g i : Nat) : Nat := g * TIMER_GROUP_MAX + i

/-- The initial ISR_HANDLERS value on a four-timer target. -/
def ISR_HANDLERS_start : Registry := [none, none, none, none]

/-- TimerDriver::unsubscribe (timer.rs lines 235-254): `self.check()`, then
if the slot holds a handler: timer_disable_intr, timer_isr_callback_remove
(each aborting on error), then clear the slot; if the slot is empty, a
no-op returning Ok. -/
def unsubscribe (st : Registry) (g i : Nat) (isrActive : Bool)
    (disableIntrCode removeCode : EspErr) :
    Except TimerPanic (Registry × Except EspErr Unit) :=
  if isrActive then .error .isrForbidden
  else
    match st.getD (slotIndex g i) none with
    | none => .ok (st, .ok ())
    | some _ =>
      if disableIntrCode = 0 then
        if removeCode = 0 then .ok (st.set (slotIndex g i) none, .ok ())
        else .ok (st, .error removeCode)
      else .ok (st, .error disableIntrCode)

/-- TimerDriver::enable_interrupt (timer.rs lines 184-190): `self.check()`
then timer_enable_intr. -/
def enable_interrupt (g i : Nat) (isrActive : Bool) (code : EspErr) :
    Except TimerPanic (List TimerCall × Except EspErr Unit) :=
  if isrActive then .error .isrForbidden
  else .ok ([.enableIntr g i], espToResult code)

/-- TimerDriver::subscribe (timer.rs lines 205-232): `self.check()`, then
`self.unsubscribe()?`, then store the new handler in the slot, then
timer_isr_callback_add, then enable_interrupt, propagating the first
error. -/
def subscribe (st : Registry) (g i : Nat) (isrActive : Bool) (handler : Nat)
    (disableIntrCode removeCode addCode enableIntrCode : EspErr) :
    Except TimerPanic (Registry × Except EspErr Unit) :=
  if isrActive then .error .isrForbidden
  else
    match unsubscribe st g i isrActive disableIntrCode removeCode with
    | .error p => .error p
    | .ok (st1, .error e) => .ok (st1, .error e)
    | .ok (st1, .ok _) =>
      let st2 := st1.set (slotIndex g i) (some handler)
      if addCode = 0 then
        match enable_interrupt g i isrActive enableIntrCode with
        | .error p => .error p
        | .ok (_, .error e) => .ok (st2, .error e)
        | .ok (_, .ok _) => .ok (st2, .ok ())
      else .ok (st2, .error addCode)

end Timer

/-! Helper lemmas about registry slots. -/

theorem getD_set_self : ∀ (l : Timer.Registry) (idx : Nat) (v : Option Nat),
    idx < l.length → (l.set idx v).getD idx none = v := by
  intro l
  induction l with
  | nil => intro idx v h; simp at h
  | cons a t ih =>
    intro idx v h
    cases idx with
    | zero => rfl
    | succ n => exact ih n v (Nat.lt_of_succ_lt_succ h)

theorem getD_some_lt : ∀ (l : Timer.Registry) (idx : Nat) (v : Nat),
    l.getD idx none = some v → idx < l.length := by
  intro l
  induction l with
  | nil => intro idx v h; simp [List.getD] at h
  | cons a t ih =>
    intro idx v h
    cases idx with
    | zero => exact Nat.succ_pos _
    | succ n => exact Nat.succ_lt_succ (ih n v h)

theorem unsubscribe_spec (st : Timer.Registry) (g i : Nat) :
    ∃ st2, Timer.unsubscribe st g i false 0 0 = .ok (st2, .ok ()) ∧
      st2.getD (Timer.slotIndex g i) none = none ∧ st2.length = st.length := by
  cases h : st.getD (Timer.slotIndex g i) none with
  | none =>
    refine ⟨st, ?_, h, rfl⟩
    have h2 := h
    rw [List.getD_eq_getElem?_getD] at h2
    simp [Timer.unsubscribe, h2]
  | some v =>
    refine ⟨st.set (Timer.slotIndex g i) none, ?_, ?_, by simp⟩
    · have h2 := h
      rw [List.getD_eq_getElem?_getD] at h2
      simp [Timer.unsubscribe, h2]
    · exact getD_set_self st _ none (getD_some_lt st _ v h)

theorem subscribe_spec (st : Timer.Registry) (g i hdl : Nat)
    (hlen : Timer.slotIndex g i < st.length) :
    ∃ st2, Timer.subscribe st g i false hdl 0 0 0 0 = .ok (st2, .ok ()) ∧
      st2.getD (Timer.slotIndex g i) none = some hdl ∧
      st2.length = st.length := by
  obtain ⟨st1, hu, hg1, hl1⟩ := unsubscribe_spec st g i
  refine ⟨st1.set (Timer.slotIndex g i) (some hdl), ?_, ?_, by simp [hl1]⟩
  · simp [Timer.subscribe, hu, Timer.enable_interrupt, espToResult]
  · exact getD_set_self st1 _ _ (hl1 ▸ hlen)

theorem unsubscribe_of_some (st : Timer.Registry) (g i v : Nat)
    (hv : st.getD (Timer.slotIndex g i) none = some v) :
    Timer.unsubscribe st g i false 0 0 =
      .ok (st.set (Timer.slotIndex g i) none, .ok ()) := by
  have h2 := hv
  rw [List.getD_eq_getElem?_getD] at h2
  simp [Timer.unsubscribe, h2]

/-- Claim C3 counterexample: set_counter called from interrupt context does
not use an in-ISR write primitive — it terminates with the `check` panic
("This function cannot be called from an ISR"), refuting that set_counter
shares counter()'s context-dependent dispatch and is callable from interrupt
context without terminating. -/
theorem timer_set_counter_isr_panics :
    Timer.set_counter 0 0 true 5 0 =
      Except.error Timer.TimerPanic.isrForbidden := rfl

/-- Claim C3 (amended): counter() and set_alarm dispatch on the execution
context — in interrupt context they use the in-ISR primitive and cannot
fail, in normal context the normal primitive whose result is propagated —
whereas set_counter panics from interrupt context (via check) and always
uses the normal write primitive from normal context. -/
theorem timer_write_dispatch_amended :
    (∀ g i isrVal code v, Timer.counter g i true isrVal code v =
        ([Timer.TimerCall.getCounterInIsr g i], Except.ok isrVal)) ∧
    (∀ g i isrVal code v, Timer.counter g i false isrVal code v =
        ([Timer.TimerCall.getCounter g i], Timer.espToValueResult code v)) ∧
    (∀ g i v code, Timer.set_alarm g i true v code =
        .ok ([Timer.TimerCall.setAlarmInIsr g i v], Except.ok ())) ∧
    (∀ g i v code, Timer.set_alarm g i false v code =
        .ok ([Timer.TimerCall.setAlarmValue g i v], espToResult code)) ∧
    (∀ g i v code, Timer.set_counter g i true v code =
        .error Timer.TimerPanic.isrForbidden) ∧
    (∀ g i v code, Timer.set_counter g i false v code =
        .ok ([Timer.TimerCall.setCounterValue g i v], espToResult code)) :=
  ⟨fun _ _ _ _ _ => rfl, fun _ _ _ _ _ => rfl, fun _ _ _ _ => rfl,
   fun _ _ _ _ => rfl, fun _ _ _ _ => rfl, fun _ _ _ _ => rfl⟩

/-- Claim C4: the declared timer marker types do NOT all expose distinct
(group, index) pairs — TIMER10 and TIMER11 both expose (TIMER_GROUP_1,
TIMER_0), while every other pair of markers is distinct. -/
theorem timer_marker_addresses_collide :
    Timer.TIMER10 = Timer.TIMER11 ∧
    Timer.TIMER10.group = 1 ∧ Timer.TIMER10.index = 0 ∧
    Timer.TIMER11.group = 1 ∧ Timer.TIMER11.index = 0 ∧
    (Timer.TIMER00 == Timer.TIMER01) = false ∧
    (Timer.TIMER00 == Timer.TIMER10) = false ∧
    (Timer.TIMER01 == Timer.TIMER10) = false := by
  decide

/-- Claim C6: subscribe from normal context first removes any previously
registered handler, so after it returns the instance's registry slot holds
exactly the new handler; two subscribe calls in succession leave exactly one
active handler (the second), and a subsequent unsubscribe leaves the slot
empty. -/
theorem timer_subscribe_replace_semantics :
    ∀ (st : Timer.Registry) (g i h1 h2 : Nat),
      Timer.slotIndex g i < st.length →
      ∃ st1 st2 st3,
        Timer.subscribe st g i false h1 0 0 0 0 = .ok (st1, .ok ()) ∧
        st1.getD (Timer.slotIndex g i) none = some h1 ∧
        Timer.subscribe st1 g i false h2 0 0 0 0 = .ok (st2, .ok ()) ∧
        st2.getD (Timer.slotIndex g i) none = some h2 ∧
        Timer.unsubscribe st2 g i false 0 0 = .ok (st3, .ok ()) ∧
        st3.getD (Timer.slotIndex g i) none = none := by
  intro st g i h1 h2 hlen
  obtain ⟨st1, e1, g1, l1⟩ := subscribe_spec st g i h1 hlen
  obtain ⟨st2, e2, g2, l2⟩ := subscribe_spec st1 g i h2 (l1 ▸ hlen)
  have e3 := unsubscribe_of_some st2 g i h2 g2
  refine ⟨st1, st2, st2.set (Timer.slotIndex g i) none, e1, g1, e2, g2, e3, ?_⟩
  exact getD_set_self st2 _ none (getD_some_lt st2 _ h2 g2)

/-- Witness for C6 at a concrete registry: slot 1 of a four-slot table
initially holding handler 7; subscribing 5 then 6 leaves exactly handler 6,
and unsubscribing empties the slot. -/
theorem timer_subscribe_replace_semantics_witness :
    ∃ st1 st2 st3,
      Timer.subscribe [some 7, none, none, none] 0 1 false 5 0 0 0 0 =
        .ok (st1, .ok ()) ∧
      st1.getD (Timer.slotIndex 0 1) none = some 5 ∧
      Timer.subscribe st1 0 1 false 6 0 0 0 0 = .ok (st2, .ok ()) ∧
      st2.getD (Timer.slotIndex 0 1) none = some 6 ∧
      Timer.unsubscribe st2 0 1 false 0 0 = .ok (st3, .ok ()) ∧
      st3.getD (Timer.slotIndex 0 1) none = none :=
  timer_subscribe_replace_semantics [some 7, none, none, none] 0 1 5 6
    (by decide)

/-- Claim C7: enable_alarm(true) succeeds from both contexts (via the in-ISR
primitive in interrupt context, via timer_set_alarm in normal context when
that primitive succeeds); enable_alarm(false) panics in interrupt context,
and in normal context disables via timer_set_alarm, propagating its
result unchanged. -/
theorem timer_enable_alarm_asymmetry :
    (∀ g i code, Timer.enable_alarm g i true true code =
        .ok ([Timer.TimerCall.enableAlarmInIsr g i], Except.ok ())) ∧
    (∀ g i code, Timer.enable_alarm g i true false code =
        .error Timer.TimerPanic.alarmDisableInIsr) ∧
    (∀ g i, Timer.enable_alarm g i false true 0 =
        .ok ([Timer.TimerCall.setAlarm g i true], Except.ok ())) ∧
    (∀ g i code, Timer.enable_alarm g i false false code =
        .ok ([Timer.TimerCall.setAlarm g i false], espToResult code)) :=
  ⟨fun _ _ _ => rfl, fun _ _ _ => rfl, fun _ _ => rfl, fun _ _ _ => rfl⟩

/-- Claim C1: evaluating the receive path shows the defect — I2sRx::read for
I2sDriver returns success while invoking no engine primitive at all (empty
call trace) and leaving the caller's 4-sample buffer untouched, instead of
performing a blocking read. -/
theorem sai_read_is_noop_stub :
    Sai.I2sRx_read 0 [0, 0, 0, 0] = ([], [0, 0, 0, 0], Except.ok ()) := rfl

/-- Claim C2 counterexample: on port 0 with a 2-byte sample width, install
succeeding (code 0) and pin binding failing (code 258), configure returns
the pin-binding error yet its engine-call trace contains no
i2s_driver_uninstall call — the claim that the engine is uninstalled on this
error path is false. -/
theorem sai_configure_no_uninstall_counterexample :
    Sai.configResult
        (Sai.configure 0 2 .I2sMode 1 2 (some 3) none none 44100 0 258) =
      some (Except.error 258) ∧
    (Sai.callTrace
        (Sai.configure 0 2 .I2sMode 1 2 (some 3) none none 44100 0 258)).contains
      (Sai.EngineCall.driverUninstall 0) = false := by
  exact ⟨rfl, rfl⟩

/-- Claim C2 (amended): when i2s_driver_install succeeds and i2s_set_pin then
fails, configure returns the pin-binding error with the engine still
installed — the complete engine-call sequence is exactly
[i2s_driver_install, i2s_set_pin], with no uninstall on that path. -/
theorem sai_configure_pin_failure_leaves_installed :
    ∀ (port : Nat) (tag : Sai.ModeTag) (bck ws din : Int) (mck : Option Int)
      (sr : Nat) (e : EspErr), e ≠ 0 →
      Sai.configure port 2 tag bck ws (some din) none mck sr 0 e =
        .ok ([.driverInstall port
                { mode := Sai.config.Mode.Master ||| Sai.config.Mode.Rx
                  sample_rate := sr
                  bits_per_sample := 16
                  channel_format := 0
                  communication_format := (Sai.get_comm_format tag).val
                  intr_alloc_flags := 2
                  dma_buf_count := 8
                  dma_buf_len := 64
                  use_apll := false },
              .setPin port
                { bck_io_num := bck
                  ws_io_num := ws
                  data_in_num := din
                  data_out_num := -1
                  mck_io_num := mck.getD (-1) }],
          .error e) := by
  intro port tag bck ws din mck sr e he
  simp [Sai.configure, Sai.tranceiverMode, Sai.config.bitsPerSampleFrom,
    espToResult, he, Sai.config.BitsPerSample.val,
    Sai.config.ChannelFormat.RightLeft, Sai.ESP_INTR_FLAG_LEVEL1]

/-- Witness for the amended C2 at concrete inputs: port 0, I2sMode tag,
pins 1/2/3, no master clock, rate 44100, set_pin failing with code 258. -/
theorem sai_configure_pin_failure_leaves_installed_witness :
    Sai.configure 0 2 .I2sMode 1 2 (some 3) none none 44100 0 258 =
      .ok ([.driverInstall 0
              { mode := Sai.config.Mode.Master ||| Sai.config.Mode.Rx
                sample_rate := 44100
                bits_per_sample := 16
                channel_format := 0
                communication_format := (Sai.get_comm_format .I2sMode).val
                intr_alloc_flags := 2
                dma_buf_count := 8
                dma_buf_len := 64
                use_apll := false },
            .setPin 0
              { bck_io_num := 1
                ws_io_num := 2
                data_in_num := 3
                data_out_num := -1
                mck_io_num := -1 }],
        .error 258) :=
  sai_configure_pin_failure_leaves_installed 0 .I2sMode 1 2 3 none 44100 258
    (by decide)

/-- Claim C5: evaluating the transmit path at the failing input (2-byte
samples, 4 of them) — write submits size 4 (the element count) with timeout
100 and surfaces the engine's error code 263 unchanged, whereas the byte
size of the slice is 8; the claim that the full byte size is submitted is
false, its timeout and error-propagation parts hold. -/
theorem sai_write_submits_element_count :
    Sai.I2sTx_write 0 4 263 =
      ([Sai.EngineCall.i2sWrite 0 4 100], Except.error 263) ∧
    Sai.writeSizeSpec 2 4 = 8 ∧ ((Sai.writeSizeSpec 2 4 == 4) = false) :=
  ⟨rfl, rfl, rfl⟩

/-- Claim C8: direction inference — data-in alone yields Rx, data-out alone
yields Tx, both yield Rx|Tx — and no public constructor (new_rx, new_tx,
new) can ever reach the `unreachable!` arm of the direction match, since
each supplies at least one data pin. -/
theorem sai_direction_inference :
    (∀ i o : Int, Sai.tranceiverMode (some i) (some o) =
        some (Sai.config.Mode.Rx ||| Sai.config.Mode.Tx)) ∧
    (∀ i : Int, Sai.tranceiverMode (some i) none = some Sai.config.Mode.Rx) ∧
    (∀ o : Int, Sai.tranceiverMode none (some o) = some Sai.config.Mode.Tx) ∧
    (∀ port sizeW tag bck ws din mck sr ic spc,
      Sai.hitsDirectionPanic
        (Sai.new_rx port sizeW tag bck ws din mck sr ic spc) = false) ∧
    (∀ port sizeW tag bck ws dout mck sr ic spc,
      Sai.hitsDirectionPanic
        (Sai.new_tx port sizeW tag bck ws dout mck sr ic spc) = false) ∧
    (∀ port sizeW tag bck ws din dout mck sr ic spc,
      Sai.hitsDirectionPanic
        (Sai.new port sizeW tag bck ws din dout mck sr ic spc) = false) := by
  refine ⟨fun i o => rfl, fun i => rfl, fun o => rfl, ?_, ?_, ?_⟩
  · intro port sizeW tag bck ws din mck sr ic spc
    cases hb : Sai.config.bitsPerSampleFrom sizeW <;>
      by_cases hic : ic = 0 <;>
        simp [Sai.new_rx, Sai.configure, Sai.tranceiverMode,
          Sai.hitsDirectionPanic, hb, hic]
  · intro port sizeW tag bck ws dout mck sr ic spc
    cases hb : Sai.config.bitsPerSampleFrom sizeW <;>
      by_cases hic : ic = 0 <;>
        simp [Sai.new_tx, Sai.configure, Sai.tranceiverMode,
          Sai.hitsDirectionPanic, hb, hic]
  · intro port sizeW tag bck ws din dout mck sr ic spc
    cases hb : Sai.config.bitsPerSampleFrom sizeW <;>
      by_cases hic : ic = 0 <;>
        simp [Sai.new, Sai.configure, Sai.tranceiverMode,
          Sai.hitsDirectionPanic, hb, hic]

/-- Claim C9: the hardware bits-per-sample value is derived solely from the
element size — 8/16/32 bits for 1/2/4-byte widths, a fixed 24 bits for the
3-byte case, and no value (a panic) for any other size — and the value
placed in the installed engine parameter block is exactly that derivation. -/
theorem sai_bits_per_sample_derivation :
    (∀ n, (Sai.config.bitsPerSampleFrom n).map Sai.config.BitsPerSample.val =
      if n = 1 then some 8 else if n = 2 then some 16
      else if n = 3 then some 24 else if n = 4 then some 32 else none) ∧
    (∀ port sizeW tag bck ws din dout mck sr ic spc,
      (Sai.installedConfig
          (Sai.configure port sizeW tag bck ws (some din) dout mck sr ic
            spc)).map Sai.I2sDriverConfig.bits_per_sample =
        (Sai.config.bitsPerSampleFrom sizeW).map
          Sai.config.BitsPerSample.val) := by
  constructor
  · intro n
    match n with
    | 0 => rfl
    | 1 => rfl
    | 2 => rfl
    | 3 => rfl
    | 4 => rfl
    | (m + 5) => rfl
  · intro port sizeW tag bck ws din dout mck sr ic spc
    cases dout <;> cases hb : Sai.config.bitsPerSampleFrom sizeW <;>
      by_cases hic : ic = 0 <;>
        simp [Sai.configure, Sai.tranceiverMode, Sai.installedConfig, hb, hic]

/-- Claim C10: whenever a configure (hence any constructor) run reaches
engine install, the mode field of the installed parameter block is the
Master bit combined with exactly the inferred Rx/Tx bits: the Master bit is
always set and the Slave bit never is, for every port, sample width, mode
tag, pin combination and primitive outcome. -/
theorem sai_mode_always_master :
    ∀ port sizeW tag bck ws din dout mck sr ic spc cfg,
      Sai.installedConfig
          (Sai.configure port sizeW tag bck ws din dout mck sr ic spc) =
        some cfg →
      ∃ tm, Sai.tranceiverMode din dout = some tm ∧
        cfg.mode = Sai.config.Mode.Master ||| tm ∧
        cfg.mode &&& Sai.config.Mode.Master = Sai.config.Mode.Master ∧
        cfg.mode &&& Sai.config.Mode.Slave = 0 := by
  intro port sizeW tag bck ws din dout mck sr ic spc cfg hcfg
  rcases din with _ | di <;> rcases dout with _ | dn <;>
    cases hb : Sai.config.bitsPerSampleFrom sizeW <;>
      by_cases hic : ic = 0 <;>
        simp [Sai.configure, Sai.tranceiverMode, Sai.installedConfig, hb,
          hic] at hcfg <;>
        subst hcfg <;>
        exact ⟨_, rfl, rfl,
          by simp [Sai.config.Mode.Master, Sai.config.Mode.Rx,
            Sai.config.Mode.Tx, Sai.config.Mode.Slave] <;> decide,
          by simp [Sai.config.Mode.Master, Sai.config.Mode.Rx,
            Sai.config.Mode.Tx, Sai.config.Mode.Slave] <;> decide⟩

/-- Witness for C10 at concrete inputs: a receive-only configure on port 0
with 2-byte samples installs mode 9 = Master ||| Rx, whose Master bit is set
and Slave bit clear. -/
theorem sai_mode_always_master_witness :
    ∃ tm, Sai.tranceiverMode (some 3) none = some tm ∧
      Sai.I2sDriverConfig.mode
          { mode := 9, sample_rate := 44100, bits_per_sample := 16,
            channel_format := 0, communication_format := 1,
            intr_alloc_flags := 2, dma_buf_count := 8, dma_buf_len := 64,
            use_apll := false } = Sai.config.Mode.Master ||| tm ∧
      Sai.I2sDriverConfig.mode
          { mode := 9, sample_rate := 44100, bits_per_sample := 16,
            channel_format := 0, communication_format := 1,
            intr_alloc_flags := 2, dma_buf_count := 8, dma_buf_len := 64,
            use_apll := false } &&& Sai.config.Mode.Master =
        Sai.config.Mode.Master ∧
      Sai.I2sDriverConfig.mode
          { mode := 9, sample_rate := 44100, bits_per_sample := 16,
            channel_format := 0, communication_format := 1,
            intr_alloc_flags := 2, dma_buf_count := 8, dma_buf_len := 64,
            use_apll := false } &&& Sai.config.Mode.Slave = 0 :=
  sai_mode_always_master 0 2 .I2sMode 1 2 (some 3) none none 44100 0 0 _
    (by decide)
